import Mathlib

/-!
Verification development for the user-repository component of the
money_managment backend (internal/domain/user/repo.go together with the
shared sentinel errors of internal/storage).

Each repository operation performs exactly one interaction with the
injected connection pool (QueryRow+Scan, Query+cursor, or Exec).  The
shallow embedding therefore models every operation as a pure function of
that single interaction's outcome, an `Except GoError` value, and returns
the Go result pair together with the list of log events the operation
emits through the injected logger.
-/

namespace MoneyRepo

/-- Go error values as they occur in this repository: the pgx zero-rows
sentinel, the three shared sentinels of internal/storage, opaque leaf
errors from the driver (`base`), `wrap ctx e` for
fmt.Errorf(ctx ++ ": %w", e), `wrapLead e s` for fmt.Errorf("%w: %s", e, s),
and `plain` for fmt.Errorf without %w. -/
inductive GoError where
  | errNoRows : GoError
  | errUserAlreadyExists : GoError
  | errDB : GoError
  | errNoUsers : GoError
  | base : String → GoError
  | wrap : String → GoError → GoError
  | wrapLead : GoError → String → GoError
  | plain : String → GoError
deriving DecidableEq, Repr

/-- The Error() string of a Go error value. -/
def errString : GoError → String
  | GoError.errNoRows => "no rows in result set"
  | GoError.errUserAlreadyExists => "user already exists"
  | GoError.errDB => "database error"
  | GoError.errNoUsers => "no users found"
  | GoError.base m => m
  | GoError.wrap ctx e => ctx ++ ": " ++ errString e
  | GoError.wrapLead e s => errString e ++ ": " ++ s
  | GoError.plain m => m

/-- Go errors.Is: the target matches the error itself or anything in its
Unwrap chain (only %w-wrapped causes are in the chain). -/
def errorsIs : GoError → GoError → Bool
  | GoError.wrap ctx e, target =>
      decide (GoError.wrap ctx e = target) || errorsIs e target
  | GoError.wrapLead e s, target =>
      decide (GoError.wrapLead e s = target) || errorsIs e target
  | e, target => decide (e = target)

/-- The User entity (internal/domain/user): timestamps are opaque instants,
modelled as integers. -/
structure User where
  ID : Int
  Username : String
  Email : String
  PassHash : String
  CreateAt : Int
  UpdateAt : Int
deriving DecidableEq, Repr

/-- Severity levels of the logger.Logger interface. -/
inductive LogLevel where
  | debug : LogLevel
  | info : LogLevel
  | warn : LogLevel
  | error : LogLevel
deriving DecidableEq, Repr

/-- The value of a structured log field. -/
inductive FieldValue where
  | int : Int → FieldValue
  | str : String → FieldValue
  | err : GoError → FieldValue
deriving DecidableEq, Repr

/-- A structured log field (logger.Field). -/
structure Field where
  Key : String
  Value : FieldValue
deriving DecidableEq, Repr

/-- One emitted log event: severity, message, structured fields. -/
structure LogEvent where
  level : LogLevel
  msg : String
  fields : List Field
deriving DecidableEq, Repr

/-- Shorthand for the logger.Field carrying an underlying cause. -/
def fErr (e : GoError) : Field := ⟨"error", FieldValue.err e⟩

/-- Shorthand for the logger.Field carrying an entity id. -/
def fUserId (id : Int) : Field := ⟨"user_id", FieldValue.int id⟩

/-- True when some event of the list has error severity. -/
def hasErrorEvent (evs : List LogEvent) : Bool :=
  evs.any (fun ev => ev.level == LogLevel.error)

def msgFailedCreate : String := "failed to create user"

def msgCreatedUser : String := "created user with id: "

def msgFailedExecGetByID : String := "failed to execute query GetByID"

def msgFailedGetByIDQuery : String := "failed GetByID query"

def msgFailedScanGetByID : String := "failed to scan row GetByID"

def msgScanGetByIDRow : String := "scan GetByID row"

def msgRowsIterGetByID : String := "rows iteration err GetByID"

def msgRowsIntegrationGetByID : String := "rows integration GetByID"

def msgUserNotFoundLog : String := "user not found"

def msgFailedExecUpdate : String := "failed to execute query Update"

def msgFailedQueryUpdate : String := "failed query Update"

def msgFailedExecDelete : String := "failed to execute query Delete"

def msgFailedDeleteUser : String := "failed delete user"

def msgFailedQueryList : String := "failed query List"

def msgFailedExecList : String := "failed to execute query List"

def msgFailedScanListLog : String := "failed scan List"

def msgFailedScanUserList : String := "failed scan user List"

def msgRowsIterListLog : String := "rows iteration error in users List"

def msgRowsInterationList : String := "rows interation List"

def msgFailedExecCount : String := "failed execute query Count"

def msgFailedQueryCount : String := "failed query Count"

def msgNotUsersFound : String := "not users found"

/-- The message of the locally constructed not-found errors:
fmt.Errorf(\x7b-free\x7d "user with id %d not found", id). -/
def notFoundMsg (id : Int) : String :=
  "user with id " ++ toString id ++ " not found"

/-- pgUserRepository.Create: one QueryRow(insert ... on conflict do
nothing returning id).Scan(&id) interaction, whose outcome is either an
error or the scanned generated id. -/
def Create (u : User) (scanRes : Except GoError Int) :
    (Int × Option GoError) × List LogEvent :=
  match scanRes with
  | Except.error err =>
    if errorsIs err GoError.errNoRows then
      ((0, some GoError.errUserAlreadyExists), [])
    else
      ((0, some (GoError.wrapLead GoError.errDB (errString err))),
        [⟨LogLevel.error, msgFailedCreate, [fErr err]⟩])
  | Except.ok id =>
    ((id, none), [⟨LogLevel.info, msgCreatedUser, [fUserId id]⟩])

/-- The behaviour of the row cursor GetByID obtains from Query: either
rows.Next() is false (with the value of rows.Err()), or a first row is
present and scanning it yields a user or an error. -/
inductive RowsOutcome where
  | noRow : Option GoError → RowsOutcome
  | row : Except GoError User → RowsOutcome
deriving Repr

/-- pgUserRepository.GetByID: one Query interaction; on success the
cursor either yields a row (scanned or failing) or no row. -/
def GetByID (id : Int) (queryRes : Except GoError RowsOutcome) :
    (Option User × Option GoError) × List LogEvent :=
  match queryRes with
  | Except.error err =>
    ((none, some (GoError.wrap msgFailedGetByIDQuery err)),
      [⟨LogLevel.error, msgFailedExecGetByID, [fErr err, fUserId id]⟩])
  | Except.ok (RowsOutcome.row scanRes) =>
    match scanRes with
    | Except.error err =>
      ((none, some (GoError.wrap msgScanGetByIDRow err)),
        [⟨LogLevel.error, msgFailedScanGetByID, [fErr err, fUserId id]⟩])
    | Except.ok u => ((some u, none), [])
  | Except.ok (RowsOutcome.noRow iterErr) =>
    match iterErr with
    | some err =>
      ((none, some (GoError.wrap msgRowsIntegrationGetByID err)),
        [⟨LogLevel.error, msgRowsIterGetByID, [fErr err, fUserId id]⟩])
    | none =>
      ((none, some (GoError.plain (notFoundMsg id))),
        [⟨LogLevel.info, msgUserNotFoundLog, [fUserId id]⟩])

/-- pgUserRepository.Update: one QueryRow(update ... returning
...).Scan interaction whose outcome is either an error or the full
updated row.  No separate existence check is made: the whole behaviour
is a function of this single statement's outcome. -/
def Update (u : User) (scanRes : Except GoError User) :
    (Option User × Option GoError) × List LogEvent :=
  match scanRes with
  | Except.error err =>
    if errorsIs err GoError.errNoRows then
      ((none, some (GoError.wrap (notFoundMsg u.ID) err)),
        [⟨LogLevel.error, msgFailedExecUpdate, [fErr err, fUserId u.ID]⟩,
         ⟨LogLevel.error, msgUserNotFoundLog, [fUserId u.ID]⟩])
    else
      ((none, some (GoError.wrap msgFailedQueryUpdate err)),
        [⟨LogLevel.error, msgFailedExecUpdate, [fErr err, fUserId u.ID]⟩])
  | Except.ok usr => ((some usr, none), [])

/-- pgUserRepository.Delete: one Exec(delete) interaction whose outcome
is either an error or the affected-row count of the command tag. -/
def Delete (id : Int) (execRes : Except GoError Nat) :
    Option GoError × List LogEvent :=
  match execRes with
  | Except.error err =>
    (some (GoError.wrap msgFailedDeleteUser err),
      [⟨LogLevel.error, msgFailedExecDelete, [fErr err, fUserId id]⟩])
  | Except.ok n =>
    if n = 0 then
      (some (GoError.plain (notFoundMsg id)),
        [⟨LogLevel.error, msgUserNotFoundLog, [fUserId id]⟩])
    else (none, [])

/-- Modelled from the spec: the store's delete-statement semantics (a
relational hard delete, section 6 of the specification) over an abstract
store of row ids — removes every row with the given id and reports the
affected-row count.  The store engine itself is an external collaborator
not present under src/. -/
def deleteRows (store : List Int) (id : Int) : List Int × Nat :=
  (store.filter (fun x => x ≠ id), (store.filter (fun x => x = id)).length)

/-- Delete run against the abstract store: issues the delete statement
and feeds the affected-row count to Delete; returns the new store and
Delete's result. -/
def runDelete (store : List Int) (id : Int) :
    List Int × (Option GoError × List LogEvent) :=
  ((deleteRows store id).1, Delete id (Except.ok (deleteRows store id).2))

/-- The behaviour of the cursor List obtains from Query: the sequence of
per-row scan outcomes, then the value of rows.Err() once the cursor is
exhausted. -/
structure ListCursor where
  rows : List (Except GoError User)
  iterErr : Option GoError
deriving Repr

/-- The scan loop of pgUserRepository.List: scans rows in cursor order,
aborting on the first scan failure. -/
def scanUsers : List (Except GoError User) → Except GoError (List User)
  | [] => Except.ok []
  | Except.error e :: _ => Except.error e
  | Except.ok u :: rest => (scanUsers rest).map (fun us => u :: us)

/-- pgUserRepository.List: one Query interaction; on success iterates
the cursor accumulating scanned users, then checks rows.Err(). -/
def ListUsers (limit offset : Int) (queryRes : Except GoError ListCursor) :
    (Option (List User) × Option GoError) × List LogEvent :=
  match queryRes with
  | Except.error err =>
    ((none, some (GoError.wrap msgFailedQueryList err)),
      [⟨LogLevel.error, msgFailedExecList, [fErr err]⟩])
  | Except.ok cur =>
    match scanUsers cur.rows with
    | Except.error e =>
      ((none, some (GoError.wrap msgFailedScanUserList e)),
        [⟨LogLevel.error, msgFailedScanListLog, [fErr e]⟩])
    | Except.ok users =>
      match cur.iterErr with
      | some e =>
        ((none, some (GoError.wrap msgRowsInterationList e)),
          [⟨LogLevel.error, msgRowsIterListLog, [fErr e]⟩])
      | none => ((some users, none), [])

/-- pgUserRepository.Count: one QueryRow(select count).Scan interaction
whose outcome is either an error or the scanned count. -/
def Count (scanRes : Except GoError Int) :
    (Int × Option GoError) × List LogEvent :=
  match scanRes with
  | Except.error err =>
    ((0, some (GoError.wrap msgFailedQueryCount err)),
      [⟨LogLevel.error, msgFailedExecCount, [fErr err]⟩])
  | Except.ok count =>
    if count = 0 then
      ((0, some GoError.errNoUsers), [⟨LogLevel.error, msgNotUsersFound, []⟩])
    else ((count, none), [])

/-- A sample user value used in concrete witnesses. -/
def u0 : User := ⟨1, "dima", "dima@example.com", "hash", 0, 0⟩

/-- A sample opaque driver failure used in concrete witnesses. -/
def bootErr : GoError := GoError.base "some db error"

/-- C1: GetByID distinguishes exactly three failure outcomes — a failing
query call yields nil and an error wrapping the cause with the
"failed GetByID query" context; a successful query with zero rows and no
iteration error yields nil and a locally constructed not-found error
carrying the id that matches none of the shared sentinels; a returned row
whose scan fails yields nil and an error wrapping the scan cause with the
"scan GetByID row" context; a successful single-row scan yields the user
and no error. -/
theorem C1_getByID_outcomes :
    (∀ (id : Int) (err : GoError),
      (GetByID id (Except.error err)).1
        = (none, some (GoError.wrap msgFailedGetByIDQuery err)))
  ∧ (∀ id : Int,
      (GetByID id (Except.ok (RowsOutcome.noRow none))).1
        = (none, some (GoError.plain (notFoundMsg id))))
  ∧ (∀ id : Int,
      errorsIs (GoError.plain (notFoundMsg id)) GoError.errUserAlreadyExists = false
      ∧ errorsIs (GoError.plain (notFoundMsg id)) GoError.errDB = false
      ∧ errorsIs (GoError.plain (notFoundMsg id)) GoError.errNoUsers = false)
  ∧ (∀ (id : Int) (err : GoError),
      (GetByID id (Except.ok (RowsOutcome.row (Except.error err)))).1
        = (none, some (GoError.wrap msgScanGetByIDRow err)))
  ∧ (∀ (id : Int) (u : User),
      (GetByID id (Except.ok (RowsOutcome.row (Except.ok u)))).1
        = (some u, none)) := by
  refine ⟨?_, ?_, ?_, ?_, ?_⟩ <;> intros <;> simp [GetByID, errorsIs]

/-- C3: whenever the insert's scan reports the zero-rows condition (any
error matching pgx.ErrNoRows), Create returns identifier 0 and the
shared AlreadyExists sentinel, for every input user. -/
theorem C3_create_conflict (u : User) (err : GoError)
    (h : errorsIs err GoError.errNoRows = true) :
    (Create u (Except.error err)).1 = (0, some GoError.errUserAlreadyExists) := by
  simp [Create, h]

/-- C3 witness: the conflict branch at a concrete user and the pgx
zero-rows sentinel itself. -/
theorem C3_create_conflict_witness :
    (Create u0 (Except.error GoError.errNoRows)).1
      = (0, some GoError.errUserAlreadyExists) :=
  C3_create_conflict u0 GoError.errNoRows (by decide)

/-- C4: when Update's single update-and-return statement reports the
zero-rows condition, Update returns nil and a not-found error carrying
the id that wraps the zero-row condition, so errors.Is against
pgx.ErrNoRows still succeeds; any other statement failure yields nil and
an error wrapping the cause with the "failed query Update" context; a
successful scan returns the row.  The embedding consumes the outcome of
the one statement only — no separate existence check exists. -/
theorem C4_update_outcomes :
    (∀ (u : User) (err : GoError), errorsIs err GoError.errNoRows = true →
      (Update u (Except.error err)).1
        = (none, some (GoError.wrap (notFoundMsg u.ID) err))
      ∧ errorsIs (GoError.wrap (notFoundMsg u.ID) err) GoError.errNoRows = true)
  ∧ (∀ (u : User) (err : GoError), errorsIs err GoError.errNoRows = false →
      (Update u (Except.error err)).1
        = (none, some (GoError.wrap msgFailedQueryUpdate err)))
  ∧ (∀ (u usr : User), (Update u (Except.ok usr)).1 = (some usr, none)) := by
  refine ⟨?_, ?_, ?_⟩
  · intro u err h
    exact ⟨by simp [Update, h], by simp [errorsIs, h]⟩
  · intro u err h
    simp [Update, h]
  · intro u usr
    simp [Update]

/-- C4 witness: the zero-rows branch of Update at a concrete user and
the pgx zero-rows sentinel. -/
theorem C4_update_outcomes_witness :
    (Update u0 (Except.error GoError.errNoRows)).1
      = (none, some (GoError.wrap (notFoundMsg u0.ID) GoError.errNoRows))
    ∧ errorsIs (GoError.wrap (notFoundMsg u0.ID) GoError.errNoRows)
        GoError.errNoRows = true :=
  C4_update_outcomes.1 u0 GoError.errNoRows (by decide)

/-- C10: for any statement failure other than the zero-rows condition —
including a failed scan of the returned row, which arrives through the
same QueryRow(...).Scan call — Update returns the generic
"failed query Update" wrapper, while GetByID wraps the very same cause
with its distinct "scan GetByID row" context: Update does not
distinguish a scan failure from a query failure. -/
theorem C10_update_scan_not_distinguished (u : User) (id : Int) (err : GoError)
    (h : errorsIs err GoError.errNoRows = false) :
    (Update u (Except.error err)).1.2
      = some (GoError.wrap msgFailedQueryUpdate err)
    ∧ (GetByID id (Except.ok (RowsOutcome.row (Except.error err)))).1.2
      = some (GoError.wrap msgScanGetByIDRow err)
    ∧ msgFailedQueryUpdate ≠ msgScanGetByIDRow := by
  refine ⟨by simp [Update, h], by simp [GetByID], by decide⟩

/-- C10 witness: a concrete non-zero-rows failure (a bad timestamp style
scan failure) at a concrete user and id. -/
theorem C10_update_scan_not_distinguished_witness :
    (Update u0 (Except.error bootErr)).1.2
      = some (GoError.wrap msgFailedQueryUpdate bootErr)
    ∧ (GetByID 42 (Except.ok (RowsOutcome.row (Except.error bootErr)))).1.2
      = some (GoError.wrap msgScanGetByIDRow bootErr)
    ∧ msgFailedQueryUpdate ≠ msgScanGetByIDRow :=
  C10_update_scan_not_distinguished u0 42 bootErr (by decide)

/-- C2 counterexample: Create's DB-error branch builds
fmt.Errorf("%w: %s", storage.ErrDB, err) — the original cause is kept
only as message text, so errors.Is-style matching on the original root
cause fails even though matching on the ErrDB sentinel succeeds. -/
theorem C2_create_wrap_counterexample :
    (Create u0 (Except.error bootErr)).1.2
      = some (GoError.wrapLead GoError.errDB "some db error")
    ∧ errorsIs (GoError.wrapLead GoError.errDB "some db error") GoError.errDB
      = true
    ∧ errorsIs (GoError.wrapLead GoError.errDB "some db error") bootErr
      = false := by
  refine ⟨rfl, by decide, by decide⟩

/-- C2 amended: when Create's insert fails with any error other than the
zero-rows condition, Create returns id 0 and an error that wraps the
DatabaseError sentinel — so errors.Is matching on storage.ErrDB
succeeds — while the original root cause is preserved only as message
text appended after the sentinel's message, not in the unwrap chain. -/
theorem C2_create_db_error (u : User) (err : GoError)
    (h : errorsIs err GoError.errNoRows = false) :
    (Create u (Except.error err)).1.1 = 0
    ∧ (Create u (Except.error err)).1.2
      = some (GoError.wrapLead GoError.errDB (errString err))
    ∧ errorsIs (GoError.wrapLead GoError.errDB (errString err)) GoError.errDB
      = true
    ∧ errString (GoError.wrapLead GoError.errDB (errString err))
      = errString GoError.errDB ++ ": " ++ errString err := by
  refine ⟨by simp [Create, h], by simp [Create, h], by simp [errorsIs], rfl⟩

/-- C2 witness: the DB-error branch at a concrete user and driver
failure. -/
theorem C2_create_db_error_witness :
    (Create u0 (Except.error bootErr)).1.1 = 0
    ∧ (Create u0 (Except.error bootErr)).1.2
      = some (GoError.wrapLead GoError.errDB (errString bootErr))
    ∧ errorsIs (GoError.wrapLead GoError.errDB (errString bootErr)) GoError.errDB
      = true
    ∧ errString (GoError.wrapLead GoError.errDB (errString bootErr))
      = errString GoError.errDB ++ ": " ++ errString bootErr :=
  C2_create_db_error u0 bootErr (by decide)

/-- Scanning for a given id in a store from which every row with that id
was just removed finds nothing. -/
theorem filter_ne_then_eq_nil (store : List Int) (id : Int) :
    (store.filter (fun x => x ≠ id)).filter (fun x => x = id) = [] := by
  induction store with
  | nil => simp
  | cons a t ih =>
    by_cases hax : a = id <;> simp [hax, ih]

/-- C5: Delete returns no error exactly on a successful execution with
affected-row count at least 1; a zero count yields the not-found error
carrying the id; an execution failure yields an error wrapping the
cause; and against the store's delete semantics, a second Delete of the
same id after a successful first Delete returns the not-found error. -/
theorem C5_delete_outcomes :
    (∀ (id : Int) (err : GoError),
      (Delete id (Except.error err)).1
        = some (GoError.wrap msgFailedDeleteUser err))
  ∧ (∀ id : Int,
      (Delete id (Except.ok 0)).1 = some (GoError.plain (notFoundMsg id)))
  ∧ (∀ (id : Int) (n : Nat), 1 ≤ n → (Delete id (Except.ok n)).1 = none)
  ∧ (∀ (store : List Int) (id : Int),
      (runDelete store id).2.1 = none →
      (runDelete (runDelete store id).1 id).2.1
        = some (GoError.plain (notFoundMsg id))) := by
  refine ⟨?_, ?_, ?_, ?_⟩
  · intro id err
    simp [Delete]
  · intro id
    simp [Delete]
  · intro id n h
    simp [Delete, Nat.not_eq_zero_of_lt h]
  · intro store id _
    simp [runDelete, deleteRows, filter_ne_then_eq_nil, Delete]

/-- C5 witness: deleting id 1 from the one-row store succeeds, and the
second delete of the same id reports not-found. -/
theorem C5_delete_outcomes_witness :
    (Delete 1 (Except.ok 1)).1 = none
    ∧ (runDelete (runDelete [(1 : Int)] 1).1 1).2.1
      = some (GoError.plain (notFoundMsg 1)) :=
  ⟨C5_delete_outcomes.2.2.1 1 1 (by decide),
   C5_delete_outcomes.2.2.2 [(1 : Int)] 1 (by rfl)⟩

/-- C6: Count returns the NoRecords sentinel and 0 when the scanned
count is zero, returns any non-zero count as-is with no error, and a
query or scan failure yields 0 and an error wrapping the cause with the
"failed query Count" context. -/
theorem C6_count_outcomes :
    (∀ err : GoError,
      (Count (Except.error err)).1
        = (0, some (GoError.wrap msgFailedQueryCount err)))
  ∧ ((Count (Except.ok 0)).1 = (0, some GoError.errNoUsers))
  ∧ (∀ c : Int, c ≠ 0 → (Count (Except.ok c)).1 = (c, none)) := by
  refine ⟨?_, by simp [Count], ?_⟩
  · intro err
    simp [Count]
  · intro c h
    simp [Count, h]

/-- C6 witness: a concrete non-zero count is returned as-is. -/
theorem C6_count_outcomes_witness :
    (Count (Except.ok 5)).1 = (5, none) :=
  C6_count_outcomes.2.2 5 (by decide)

/-- The scan loop maps a list of successfully scanning rows to exactly
that list of users, in cursor order. -/
theorem scanUsers_map_ok (us : List User) :
    scanUsers (us.map Except.ok) = Except.ok us := by
  induction us with
  | nil => rfl
  | cons u rest ih => simp [scanUsers, ih, Except.map]

/-- The scan loop aborts with the first scan failure, whatever rows
scanned before it and whatever follows it. -/
theorem scanUsers_first_error (pre : List User) (e : GoError)
    (post : List (Except GoError User)) :
    scanUsers (pre.map Except.ok ++ Except.error e :: post) = Except.error e := by
  induction pre with
  | nil => rfl
  | cons u rest ih => simp [scanUsers, ih, Except.map]

/-- C7: List accumulates scanned users in cursor order; a scan failure
on any row yields nil and a wrapped error with no partial results; an
iteration error reported after the loop yields nil and a wrapped error;
an empty result set yields the empty sequence and no error; a failing
query call yields nil and a wrapped error — for every limit and offset. -/
theorem C7_list_outcomes :
    (∀ (limit offset : Int) (err : GoError),
      (ListUsers limit offset (Except.error err)).1
        = (none, some (GoError.wrap msgFailedQueryList err)))
  ∧ (∀ (limit offset : Int) (us : List User),
      (ListUsers limit offset (Except.ok ⟨us.map Except.ok, none⟩)).1
        = (some us, none))
  ∧ (∀ (limit offset : Int) (pre : List User) (e : GoError)
      (post : List (Except GoError User)) (iterErr : Option GoError),
      (ListUsers limit offset
          (Except.ok ⟨pre.map Except.ok ++ Except.error e :: post, iterErr⟩)).1
        = (none, some (GoError.wrap msgFailedScanUserList e)))
  ∧ (∀ (limit offset : Int) (us : List User) (e : GoError),
      (ListUsers limit offset (Except.ok ⟨us.map Except.ok, some e⟩)).1
        = (none, some (GoError.wrap msgRowsInterationList e)))
  ∧ (∀ limit offset : Int,
      (ListUsers limit offset
          (Except.ok ⟨([] : List (Except GoError User)), none⟩)).1
        = (some [], none)) := by
  refine ⟨?_, ?_, ?_, ?_, ?_⟩
  · intro limit offset err
    simp [ListUsers]
  · intro limit offset us
    simp [ListUsers, scanUsers_map_ok]
  · intro limit offset pre e post iterErr
    simp [ListUsers, scanUsers_first_error]
  · intro limit offset us e
    simp [ListUsers, scanUsers_map_ok]
  · intro limit offset
    simp [ListUsers, scanUsers]

/-- C8 counterexample: Create's already-exists branch returns a non-nil
error yet emits no log event at all, so no error-severity event precedes
the returned error. -/
theorem C8_logging_counterexample :
    (Create u0 (Except.error GoError.errNoRows)).1.2
      = some GoError.errUserAlreadyExists
    ∧ (Create u0 (Except.error GoError.errNoRows)).2 = []
    ∧ hasErrorEvent (Create u0 (Except.error GoError.errNoRows)).2 = false := by
  refine ⟨rfl, rfl, rfl⟩

/-- C8 amended: every failing path of the user repository emits an
error-severity structured log event before returning its error, with two
exceptions — Create's already-exists path emits no log event at all, and
GetByID's zero-rows not-found path emits an info-severity event only. -/
theorem C8_error_logging :
    (∀ (u : User) (err : GoError), errorsIs err GoError.errNoRows = false →
      hasErrorEvent (Create u (Except.error err)).2 = true)
  ∧ (∀ (id : Int) (err : GoError),
      hasErrorEvent (GetByID id (Except.error err)).2 = true)
  ∧ (∀ (id : Int) (err : GoError),
      hasErrorEvent
        (GetByID id (Except.ok (RowsOutcome.row (Except.error err)))).2 = true)
  ∧ (∀ (id : Int) (err : GoError),
      hasErrorEvent
        (GetByID id (Except.ok (RowsOutcome.noRow (some err)))).2 = true)
  ∧ (∀ (u : User) (err : GoError),
      hasErrorEvent (Update u (Except.error err)).2 = true)
  ∧ (∀ (id : Int) (err : GoError),
      hasErrorEvent (Delete id (Except.error err)).2 = true)
  ∧ (∀ id : Int, hasErrorEvent (Delete id (Except.ok 0)).2 = true)
  ∧ (∀ (limit offset : Int) (err : GoError),
      hasErrorEvent (ListUsers limit offset (Except.error err)).2 = true)
  ∧ (∀ (limit offset : Int) (pre : List User) (e : GoError)
      (post : List (Except GoError User)) (iterErr : Option GoError),
      hasErrorEvent
        (ListUsers limit offset
          (Except.ok ⟨pre.map Except.ok ++ Except.error e :: post, iterErr⟩)).2
        = true)
  ∧ (∀ (limit offset : Int) (us : List User) (e : GoError),
      hasErrorEvent
        (ListUsers limit offset (Except.ok ⟨us.map Except.ok, some e⟩)).2 = true)
  ∧ (∀ err : GoError, hasErrorEvent (Count (Except.error err)).2 = true)
  ∧ (hasErrorEvent (Count (Except.ok 0)).2 = true)
  ∧ (∀ (u : User) (err : GoError), errorsIs err GoError.errNoRows = true →
      (Create u (Except.error err)).2 = [])
  ∧ (∀ id : Int,
      (GetByID id (Except.ok (RowsOutcome.noRow none))).2
        = [⟨LogLevel.info, msgUserNotFoundLog, [fUserId id]⟩]) := by
  refine ⟨?_, ?_, ?_, ?_, ?_, ?_, ?_, ?_, ?_, ?_, ?_, ?_, ?_, ?_⟩
  · intro u err h
    simp [Create, h, hasErrorEvent]
  · intro id err
    simp [GetByID, hasErrorEvent]
  · intro id err
    simp [GetByID, hasErrorEvent]
  · intro id err
    simp [GetByID, hasErrorEvent]
  · intro u err
    by_cases h : errorsIs err GoError.errNoRows = true <;>
      simp [Update, h, hasErrorEvent]
  · intro id err
    simp [Delete, hasErrorEvent]
  · intro id
    simp [Delete, hasErrorEvent]
  · intro limit offset err
    simp [ListUsers, hasErrorEvent]
  · intro limit offset pre e post iterErr
    simp [ListUsers, scanUsers_first_error, hasErrorEvent]
  · intro limit offset us e
    simp [ListUsers, scanUsers_map_ok, hasErrorEvent]
  · intro err
    simp [Count, hasErrorEvent]
  · simp [Count, hasErrorEvent]
  · intro u err h
    simp [Create, h]
  · intro id
    simp [GetByID]

/-- C8 witness: Create's DB-error branch at a concrete user and driver
failure does emit an error-severity event. -/
theorem C8_error_logging_witness :
    hasErrorEvent (Create u0 (Except.error bootErr)).2 = true :=
  C8_error_logging.1 u0 bootErr (by decide)

/-- C9: exactly one of result and error is meaningful — Create returns
identifier 0 whenever its error is non-nil; GetByID and Update return a
nil user exactly when their error is non-nil; List returns a nil
sequence whenever its error is non-nil; Count returns 0 whenever its
error is non-nil. -/
theorem C9_result_error_exclusive :
    (∀ (u : User) (sr : Except GoError Int),
      (Create u sr).1.2 = none ∨ (Create u sr).1.1 = 0)
  ∧ (∀ (id : Int) (q : Except GoError RowsOutcome),
      ((GetByID id q).1.1 = none ↔ (GetByID id q).1.2 ≠ none))
  ∧ (∀ (u : User) (sr : Except GoError User),
      ((Update u sr).1.1 = none ↔ (Update u sr).1.2 ≠ none))
  ∧ (∀ (limit offset : Int) (q : Except GoError ListCursor),
      (ListUsers limit offset q).1.2 = none
      ∨ (ListUsers limit offset q).1.1 = none)
  ∧ (∀ sr : Except GoError Int,
      (Count sr).1.2 = none ∨ (Count sr).1.1 = 0) := by
  refine ⟨?_, ?_, ?_, ?_, ?_⟩
  · intro u sr
    rcases sr with err | idv
    · by_cases h : errorsIs err GoError.errNoRows = true <;> simp [Create, h]
    · simp [Create]
  · intro id q
    rcases q with err | outcome
    · simp [GetByID]
    · rcases outcome with iterErr | scanRes
      · rcases iterErr with _ | e <;> simp [GetByID]
      · rcases scanRes with e | u <;> simp [GetByID]
  · intro u sr
    rcases sr with err | usr
    · by_cases h : errorsIs err GoError.errNoRows = true <;> simp [Update, h]
    · simp [Update]
  · intro limit offset q
    rcases q with err | cur
    · simp [ListUsers]
    · obtain ⟨rows, iterErr⟩ := cur
      rcases hs : scanUsers rows with e | us
      · simp [ListUsers, hs]
      · rcases iterErr with _ | e <;> simp [ListUsers, hs]
  · intro sr
    rcases sr with err | c
    · simp [Count]
    · by_cases h : c = 0 <;> simp [Count, h]

end MoneyRepo
